import Mathlib

set_option maxRecDepth 100000

/-!
Verification development for the WCO PDF acquisition scripts.

The definitions below are a shallow embedding of the TypeScript source
(the direct-HTTP download script `download-wco-pdfs.ts` and the
browser-assisted `download-wco-pdfs-browser.ts`).  Network traffic is
modelled by oracles `Nat → GetEvent` / `Nat → HeadEvent` consumed one
event per HTTP transaction, the local filesystem by an association list
from filenames to byte contents (bytes as `Char` lists), JavaScript
numbers used for delays by `ℚ`, and `Math.random()` by a stream
`Nat → ℚ` of values in `[0, 1)`.

All string operations are written as structural recursions over the
underlying character lists so that every definition evaluates inside
the kernel (`decide` / `rfl`).
-/

namespace WCO

/-- `a.isPrefixOfL b`: the char list `a` is an initial segment of `b`. -/
def isPrefixOfL : List Char → List Char → Bool
  | [], _ => true
  | _ :: _, [] => false
  | a :: as, b :: bs => a == b && isPrefixOfL as bs

/-- Helper for the JavaScript `hay.includes(needle)` on char lists. -/
def isInfixOfL (needle : List Char) : List Char → Bool
  | [] => isPrefixOfL needle []
  | b :: bs => isPrefixOfL needle (b :: bs) || isInfixOfL needle bs

/-- JavaScript `hay.includes(needle)` (substring test). -/
def strIncludes (hay needle : String) : Bool :=
  isInfixOfL needle.data hay.data

/-- JavaScript `s.endsWith(suf)`. -/
def strEndsWith (s suf : String) : Bool :=
  isPrefixOfL suf.data.reverse s.data.reverse

/-- JavaScript string comparison `a < b` (lexicographic by code unit);
used by `Array.prototype.sort()` on filenames. -/
def ltL : List Char → List Char → Bool
  | [], [] => false
  | [], _ :: _ => true
  | _ :: _, [] => false
  | a :: as, b :: bs => a < b || (a == b && ltL as bs)

/-- String version of `ltL`. -/
def ltStr (a b : String) : Bool := ltL a.data b.data

/-- Strip leading and trailing whitespace (JavaScript `s.trim()`). -/
def trimL (l : List Char) : List Char :=
  ((l.dropWhile Char.isWhitespace).reverse.dropWhile Char.isWhitespace).reverse

/-- Global string replacement, one left-to-right non-overlapping pass:
JavaScript `s.replace(/pat/g, rep)` for a plain pattern.  The fuel
argument is the length of the scanned list, consumed one character per
step. -/
def replaceAllAux (pat rep : List Char) : Nat → List Char → List Char
  | 0, l => l
  | _ + 1, [] => []
  | fuel + 1, c :: rest =>
      if pat.length > 0 && isPrefixOfL pat (c :: rest) then
        rep ++ replaceAllAux pat rep fuel (List.drop (pat.length - 1) rest)
      else
        c :: replaceAllAux pat rep fuel rest

/-- JavaScript `s.replace(/pat/g, rep)` for a plain pattern. -/
def strReplace (s pat rep : String) : String :=
  ⟨replaceAllAux pat.data rep.data s.data.length s.data⟩

/-- `Array.prototype.join(sep)`. -/
def joinSep (sep : String) : List String → String
  | [] => ""
  | [a] => a
  | a :: b :: rest => a ++ sep ++ joinSep sep (b :: rest)

/-- `String(n)` for a natural number, then `.padStart(2, '0')`:
pads the decimal representation on the left with `'0'` up to length 2. -/
def pad2 (n : Nat) : String :=
  let s := toString n
  if s.length < 2 then "0" ++ s else s

/-- `parseInt(s, 10)` restricted to all-digit strings, as used on the
two-digit heading strings and on the resume-pattern capture groups. -/
def parseDec (s : String) : Nat :=
  s.data.foldl (fun acc c => acc * 10 + (c.toNat - '0'.toNat)) 0

/-- The pure per-header step of `extractCookies` (download-wco-pdfs.ts,
lines 125-141): each `Set-Cookie` header is cut at the first `;`
(`cookieHeader.split(';')[0]`) and trimmed; empty results are dropped. -/
def extractCookiePairs (headers : List String) : List String :=
  headers.foldl
    (fun cookies h =>
      let cookie : String := ⟨trimL (h.data.takeWhile (fun c => c ≠ ';'))⟩
      if cookie ≠ "" then cookies ++ [cookie] else cookies)
    []

/-- `extractCookies` applied to the module-level `cookieJar`: `none`
models a response without a `set-cookie` header.  The jar is replaced
by the joined new cookies only when at least one cookie was extracted. -/
def extractCookies (jar : String) (hdr : Option (List String)) : String :=
  match hdr with
  | none => jar
  | some headers =>
      let cookies := extractCookiePairs headers
      if cookies.length > 0 then joinSep "; " cookies else jar

/-- `generateHeadings` (lines 473-483): the two-digit heading strings
`"01"`, …, `"99"`. -/
def generateHeadings : List String :=
  (List.range 99).map (fun h => pad2 (h + 1))

/-- The coordinate filename built at line 973:
`${String(chapter).padStart(2, '0')}${heading}_${config.edition}e.pdf`.
The same two-digit–two-digit core appears in `buildUrl` (lines 486-491). -/
def coordFilename (edition : String) (chapter : Nat) (heading : String) : String :=
  pad2 chapter ++ heading ++ "_" ++ edition ++ "e.pdf"

/-- Named/mandatory documents: the `{EDITION}` placeholder is replaced
by the edition year (line 857). -/
def mandatoryFilename (edition tmpl : String) : String :=
  strReplace tmpl "{EDITION}" edition

/-- One HTTP transaction as seen by `downloadFile`: either a response
(status, `Location` header, body bytes, `set-cookie` headers) or an
`error` event on the request. -/
inductive GetEvent where
  | resp (status : Nat) (location : Option String) (body : List Char)
      (setCookie : Option (List String))
  | err (msg : String)
deriving DecidableEq

/-- One HEAD transaction as seen by `checkFileChanged`: a response
(status, `Location`, `content-length`), an `error` event, or the 10 s
timeout firing. -/
inductive HeadEvent where
  | resp (status : Nat) (location : Option String) (contentLength : Option Nat)
  | err
  | timeout
deriving DecidableEq

/-- Externally visible steps of a run, in order: politeness sleeps (ms),
HEAD transactions of the change detector, and GET transactions of the
fetcher (tagged with the `attempt` and `redirectCount` of the issuing
`attemptDownload` call). -/
inductive Action where
  | sleep (ms : ℚ)
  | headReq (name : String)
  | getReq (name : String) (attempt redirectCount : Nat)
deriving DecidableEq

/-- The `DownloadResult` interface (lines 333-338). -/
structure DownloadResult where
  success : Bool
  status : Option Nat := none
  error : Option String := none
  size : Option Nat := none
deriving DecidableEq

instance {ε α : Type} [DecidableEq ε] [DecidableEq α] : DecidableEq (Except ε α) := fun a b =>
  match a, b with
  | .error x, .error y =>
      if h : x = y then isTrue (by rw [h]) else isFalse (by intro hc; cases hc; exact h rfl)
  | .error _, .ok _ => isFalse (by intro hc; cases hc)
  | .ok _, .error _ => isFalse (by intro hc; cases hc)
  | .ok x, .ok y =>
      if h : x = y then isTrue (by rw [h]) else isFalse (by intro hc; cases hc; exact h rfl)

/-- The cleanup performed on the 404 / error-page / final-failure paths
(e.g. lines 611-622): delete the written file only if it is empty or
very small (`size === 0 || size < 100`). -/
def deleteIfSmall (c : Option (List Char)) : Option (List Char) :=
  match c with
  | some l => if l.length == 0 || l.length < 100 then none else some l
  | none => none

/-- Result of one `downloadFile` call: the settled promise (`Except.error`
is a rejected promise), the final content of `outputPath`, the cookie
jar, the next network-oracle index, and the emitted actions. -/
structure FetchOut where
  result : Except String DownloadResult
  file : Option (List Char)
  jar : String
  k : Nat
  trace : List Action
deriving DecidableEq

/-- Is `status` one of the handled redirect codes (lines 543-544)? -/
def isRedirectStatus (status : Nat) : Bool :=
  status == 301 || status == 302 || status == 303 || status == 307 || status == 308

/-- `attemptDownload` inside `downloadFile` (lines 505-687).  Each call
opens a write stream (truncating `outputPath` to empty), issues one GET
(consuming `G k`), then: follows redirects up to the hop limit using the
`Location` header (an error-page location is treated as 404); treats 404
as terminal; retries any other non-200 status and any request error
while `attempt < retries`, sleeping `1000 * attempt` ms; and on 200
writes the body and resolves with its size.  No content validation is
performed on this path.

The `fuel` argument only makes the recursion structural (so that the
kernel can evaluate the function); every call consumes one unit and the
source recursion depth is bounded by
`(retries - attempt) + (maxRedirects - redirectCount) + 1`, so any fuel
of at least that bound (as supplied by `downloadFile`) never runs out. -/
def attemptDownload (G : Nat → GetEvent) (name : String)
    (retries maxRedirects : Nat) (fuel : Nat) (file : Option (List Char))
    (jar : String) (attempt redirectCount k : Nat) : FetchOut :=
  match fuel with
  | 0 =>
      { result := .error "out of fuel", file := file, jar := jar, k := k, trace := [] }
  | fuel + 1 =>
    if maxRedirects ≤ redirectCount then
      -- "Too many redirects": resolved before any stream is opened.
      { result := .ok { success := false, status := some 0, error := some "Too many redirects" },
        file := file, jar := jar, k := k, trace := [] }
    else
      -- const file = createWriteStream(outputPath) truncates the target.
      let opened : Option (List Char) := some []
      match G k with
      | .err msg =>
          if attempt < retries then
            let out := attemptDownload G name retries maxRedirects fuel opened jar
              (attempt + 1) redirectCount (k + 1)
            { out with trace := Action.getReq name attempt redirectCount ::
                Action.sleep ((1000 * attempt : Nat) : ℚ) :: out.trace }
          else
            { result := .error msg, file := deleteIfSmall opened, jar := jar,
              k := k + 1, trace := [Action.getReq name attempt redirectCount] }
      | .resp status loc body setCookie =>
          let jar1 := extractCookies jar setCookie
          if isRedirectStatus status then
            match loc with
            | none =>
                -- No Location header: file closed and deleted unconditionally.
                let r : DownloadResult :=
                  ⟨false, some status, some ("HTTP " ++ toString status ++ " - No redirect location"), none⟩
                { result := .ok r, file := none, jar := jar1, k := k + 1,
                  trace := [Action.getReq name attempt redirectCount] }
            | some location =>
                if strIncludes location "/error" || strIncludes location "404" then
                  let r : DownloadResult :=
                    ⟨false, some 404, some "Not Found (redirected to error page)", none⟩
                  { result := .ok r, file := deleteIfSmall opened, jar := jar1, k := k + 1,
                    trace := [Action.getReq name attempt redirectCount] }
                else
                  let out := attemptDownload G name retries maxRedirects fuel opened jar1
                    attempt (redirectCount + 1) (k + 1)
                  { out with trace := Action.getReq name attempt redirectCount :: out.trace }
          else if status == 404 then
            { result := .ok { success := false, status := some 404, error := some "Not Found" },
              file := deleteIfSmall opened, jar := jar1, k := k + 1,
              trace := [Action.getReq name attempt redirectCount] }
          else if status != 200 then
            let afterDelete :=
              if 500 ≤ status ∧ retries ≤ attempt then deleteIfSmall opened else opened
            if attempt < retries then
              let out := attemptDownload G name retries maxRedirects fuel opened jar1
                (attempt + 1) redirectCount (k + 1)
              { out with trace := Action.getReq name attempt redirectCount ::
                  Action.sleep ((1000 * attempt : Nat) : ℚ) :: out.trace }
            else
              let r : DownloadResult :=
                ⟨false, some status, some ("HTTP " ++ toString status), none⟩
              { result := .ok r, file := afterDelete, jar := jar1, k := k + 1,
                trace := [Action.getReq name attempt redirectCount] }
          else
            { result := .ok { success := true, size := some body.length },
              file := some body, jar := jar1, k := k + 1,
              trace := [Action.getReq name attempt redirectCount] }

/-- `downloadFile` (line 501): first attempt, no redirects followed yet,
hop limit 5 as at every call site; the fuel `retries + 6` exceeds the
recursion-depth bound `(retries - 1) + 5 + 1`. -/
def downloadFile (G : Nat → GetEvent) (name : String) (retries : Nat)
    (file : Option (List Char)) (jar : String) (k : Nat) : FetchOut :=
  attemptDownload G name retries 5 (retries + 6) file jar 1 0 k

/-- The PDF magic signature `%PDF`. -/
def pdfMagic : List Char := ['%', 'P', 'D', 'F']

/-- `downloadPDF` of the browser-assisted script (lines 2102-2184):
the body is buffered in memory; 404 yields an empty buffer which is
silently skipped; 403/429 and other non-200 statuses reject (caught,
returning `false`); a buffer not starting with `%PDF` is rejected
without being written; only a validated buffer is written to disk. -/
def downloadPDF (status : Nat) (body : List Char) (file : Option (List Char)) :
    Bool × Option (List Char) :=
  if status == 404 then (false, file)
  else if status == 403 || status == 429 then (false, file)
  else if status != 200 then (false, file)
  else if body.length == 0 then (false, file)
  else if body.length < 4 || !(isPrefixOfL pdfMagic body) then (false, file)
  else (true, some body)

/-- Result of one `checkFileChanged` call. -/
structure HeadOut where
  changed : Bool
  k : Nat
  trace : List Action
deriving DecidableEq

/-- The `checkFile` loop inside `checkFileChanged` (lines 719-802): a
HEAD request whose redirects are followed up to the hop limit; any
failure (overflowed redirects, missing `Location`, 404, other non-200
status, request error, timeout) conservatively reports "changed"; on
200 the remote size is `parseInt(content-length || '0')` and the file
is unchanged exactly when the local size exists and matches.  As in
`attemptDownload`, `fuel` only makes the recursion structural. -/
def checkFileAux (H : Nat → HeadEvent) (name : String) (maxRedirects : Nat)
    (localSize : Option Nat) (fuel : Nat) (redirectCount k : Nat) : HeadOut :=
  match fuel with
  | 0 => { changed := true, k := k, trace := [] }
  | fuel + 1 =>
    if maxRedirects ≤ redirectCount then
      { changed := true, k := k, trace := [] }
    else
      match H k with
      | .err => { changed := true, k := k + 1, trace := [Action.headReq name] }
      | .timeout => { changed := true, k := k + 1, trace := [Action.headReq name] }
      | .resp status loc contentLength =>
          if isRedirectStatus status then
            match loc with
            | none => { changed := true, k := k + 1, trace := [Action.headReq name] }
            | some _ =>
                let out := checkFileAux H name maxRedirects localSize fuel
                  (redirectCount + 1) (k + 1)
                { out with trace := Action.headReq name :: out.trace }
          else if status == 404 then
            { changed := true, k := k + 1, trace := [Action.headReq name] }
          else if status != 200 then
            { changed := true, k := k + 1, trace := [Action.headReq name] }
          else
            let remoteSize := contentLength.getD 0
            match localSize with
            | none => { changed := true, k := k + 1, trace := [Action.headReq name] }
            | some ls =>
                { changed := decide (ls ≠ remoteSize), k := k + 1,
                  trace := [Action.headReq name] }

/-- `checkFileChanged` (line 719): hop limit 5, starting at redirect 0;
fuel 6 exceeds the depth bound `5 + 1`. -/
def checkFileChanged (H : Nat → HeadEvent) (name : String)
    (localSize : Option Nat) (k : Nat) : HeadOut :=
  checkFileAux H name 5 localSize 6 0 k

/-- `getRandomDelay` (lines 231-235):
`baseDelay + Math.floor(Math.random() * variation)`, with the random
draw `r ∈ [0, 1)` supplied explicitly. -/
def getRandomDelay (baseDelay variation r : ℚ) : ℚ :=
  baseDelay + ((⌊r * variation⌋ : ℤ) : ℚ)

/-- The relevant fields of the `Config` interface (lines 318-331).
`chapters` is the parsed chapter list (`parseChapters`). -/
structure Config where
  edition : String
  chapters : List Nat
  delay : ℚ
  delayVariation : ℚ
  retries : Nat
  resume : Bool
  dryRun : Bool
  checkExisting : Bool
  skipExisting : Bool

/-- The evolving state of one `main()` invocation: the output
directory (filename ↦ content), the cookie jar, the aggregated
counters, the positions in the three oracle streams, the emitted
actions, and `some code` once `process.exit(code)` has been called. -/
structure RunState where
  fs : List (String × List Char)
  jar : String
  attempted : Nat
  downloaded : Nat
  failed : Nat
  skipped : Nat
  kGet : Nat
  kHead : Nat
  kRand : Nat
  trace : List Action
  exited : Option Nat

/-- Look a file up in the output directory. -/
def lookupFile (fs : List (String × List Char)) (name : String) : Option (List Char) :=
  match fs.find? (fun p => p.1 == name) with
  | some p => some p.2
  | none => none

/-- Write (`some`) or delete (`none`) a file in the output directory. -/
def setFile (fs : List (String × List Char)) (name : String)
    (c : Option (List Char)) : List (String × List Char) :=
  match c with
  | none => fs.filter (fun p => p.1 != name)
  | some l => (name, l) :: fs.filter (fun p => p.1 != name)

/-- The shared per-item body of the two download loops (mandatory
documents: lines 856-923; grid items: lines 976-1046).
In source order: count the attempt; `--skip-existing` skips an existing
file with no request; `--check-existing` (on an existing file) sleeps
`getRandomDelay(delay/2, delayVariation/2)` when `delay > 0`, runs
`checkFileChanged`, and skips when unchanged; a dry run only counts;
otherwise `downloadFile` runs, a success counts as downloaded, a 404
result calls `process.exit(1)`, any other failure (including a rejected
promise) counts as failed, and when `delay > 0` the loop then sleeps
`getRandomDelay(delay, delayVariation)`. -/
def processFile (cfg : Config) (G : Nat → GetEvent) (H : Nat → HeadEvent)
    (R : Nat → ℚ) (st : RunState) (filename : String) : RunState :=
  let st := { st with attempted := st.attempted + 1 }
  let existsLocal := (lookupFile st.fs filename).isSome
  if cfg.skipExisting && !cfg.dryRun && existsLocal then
    { st with skipped := st.skipped + 1 }
  else
    let headPhase : RunState × Bool :=
      if cfg.checkExisting && !cfg.dryRun && existsLocal then
        let st1 :=
          if 0 < cfg.delay then
            { st with
              kRand := st.kRand + 1,
              trace := st.trace ++
                [Action.sleep (getRandomDelay (cfg.delay / 2) (cfg.delayVariation / 2)
                  (R st.kRand))] }
          else st
        let localSize := (lookupFile st1.fs filename).map List.length
        let ho := checkFileChanged H filename localSize st1.kHead
        let st2 := { st1 with kHead := ho.k, trace := st1.trace ++ ho.trace }
        if ho.changed then (st2, false)
        else ({ st2 with skipped := st2.skipped + 1 }, true)
      else (st, false)
    match headPhase with
    | (st2, true) => st2
    | (st2, false) =>
        if cfg.dryRun then { st2 with downloaded := st2.downloaded + 1 }
        else
          let fo := downloadFile G filename cfg.retries (lookupFile st2.fs filename)
            st2.jar st2.kGet
          let st3 := { st2 with
            fs := setFile st2.fs filename fo.file, jar := fo.jar,
            kGet := fo.k, trace := st2.trace ++ fo.trace }
          let st4 :=
            match fo.result with
            | .ok r =>
                if r.success then { st3 with downloaded := st3.downloaded + 1 }
                else if r.status == some 404 then { st3 with exited := some 1 }
                else { st3 with failed := st3.failed + 1 }
            | .error _ => { st3 with failed := st3.failed + 1 }
          if st4.exited.isSome then st4
          else if 0 < cfg.delay then
            { st4 with
              kRand := st4.kRand + 1,
              trace := st4.trace ++
                [Action.sleep (getRandomDelay cfg.delay cfg.delayVariation (R st4.kRand))] }
          else st4

/-- A `for … of` loop whose continuation is cut off by `process.exit`:
once `exited` is set, remaining items are not processed. -/
def foldItems {α : Type} (f : RunState → α → RunState) (st : RunState)
    (xs : List α) : RunState :=
  xs.foldl (fun s x => if s.exited.isSome then s else f s x) st

/-- The mandatory-document loop (lines 856-923). -/
def runMandatory (cfg : Config) (G : Nat → GetEvent) (H : Nat → HeadEvent)
    (R : Nat → ℚ) (additionalPdfs : List String) (st : RunState) : RunState :=
  foldItems (fun s tmpl => processFile cfg G H R s (mandatoryFilename cfg.edition tmpl))
    st additionalPdfs

/-- The `ResumePoint` interface (lines 346-349). -/
structure ResumePoint where
  chapter : Nat
  heading : Nat
deriving DecidableEq

/-- Numeric value of a decimal digit character. -/
def digitVal (c : Char) : Nat := c.toNat - '0'.toNat

/-- Is `c` a decimal digit? -/
def isDig (c : Char) : Bool := '0' ≤ c && c ≤ '9'

/-- The regular expression `^(\d{2})(\d{2})_(\d{4})e\.pdf$` applied to a
filename (line 938), returning `parseInt` of the first two capture
groups (lines 940-943). -/
def parseCoordFilename (s : String) : Option ResumePoint :=
  match s.data with
  | [a, b, c, d, u, y1, y2, y3, y4, e, dot, p, q, f] =>
      if isDig a && isDig b && isDig c && isDig d && u == '_' &&
         isDig y1 && isDig y2 && isDig y3 && isDig y4 &&
         e == 'e' && dot == '.' && p == 'p' && q == 'd' && f == 'f' then
        some { chapter := digitVal a * 10 + digitVal b,
               heading := digitVal c * 10 + digitVal d }
      else none
  | _ => none

/-- The maximum of a list of strings in code-unit order: the last
element of the JavaScript ascending sort (`pdfFiles.sort()` followed by
`pdfFiles[pdfFiles.length - 1]`, lines 935-937). -/
def maxString (xs : List String) : Option String :=
  xs.foldl
    (fun acc f =>
      match acc with
      | none => some f
      | some m => if ltStr m f then some f else some m)
    none

/-- The resume scan (lines 931-948): list the output directory, keep
the `.pdf` names, sort ascending and take the LAST name, and parse it
against the coordinate pattern; a non-matching last name leaves the
resume point unset. -/
def findResumePoint (files : List String) : Option ResumePoint :=
  match maxString (files.filter (fun f => strEndsWith f ".pdf")) with
  | none => none
  | some lastFile => parseCoordFilename lastFile

/-- The per-heading body of the grid loop (lines 963-1047): headings up
to and including the resume point (in the resume chapter) are skipped
with no other effect; otherwise the item is processed like a mandatory
document, with the coordinate filename of line 973. -/
def processGridItem (cfg : Config) (G : Nat → GetEvent) (H : Nat → HeadEvent)
    (R : Nat → ℚ) (rf : Option ResumePoint) (chapter : Nat) (st : RunState)
    (heading : String) : RunState :=
  let skipResume :=
    match rf with
    | some r => chapter == r.chapter && decide (parseDec heading ≤ r.heading)
    | none => false
  if skipResume then st
  else processFile cfg G H R st (coordFilename cfg.edition chapter heading)

/-- The per-chapter body of the grid loop (lines 951-1050): chapters
before the resume chapter are skipped entirely. -/
def runChapter (cfg : Config) (G : Nat → GetEvent) (H : Nat → HeadEvent)
    (R : Nat → ℚ) (rf : Option ResumePoint) (st : RunState) (chapter : Nat) :
    RunState :=
  let skipChapter :=
    match rf with
    | some r => decide (chapter < r.chapter)
    | none => false
  if skipChapter then st
  else foldItems (processGridItem cfg G H R rf chapter) st generateHeadings

/-- The grid phase over all configured chapters. -/
def runGrid (cfg : Config) (G : Nat → GetEvent) (H : Nat → HeadEvent)
    (R : Nat → ℚ) (rf : Option ResumePoint) (st : RunState) : RunState :=
  foldItems (runChapter cfg G H R rf) st cfg.chapters

/-- `establishSession` (lines 173-229) as far as the cookie jar is
concerned: the warm-up visit harvests `Set-Cookie` into the jar
(starting from the empty jar); a request error or timeout leaves it
empty.  `none` models the error/timeout path. -/
def warmUpJar (warm : Option (Option (List String))) : String :=
  match warm with
  | none => ""
  | some sc => extractCookies "" sc

/-- The state at the start of `main()`: initial output directory,
warm-up cookies, zeroed counters and oracle positions. -/
def initRunState (warm : Option (Option (List String)))
    (fs0 : List (String × List Char)) : RunState :=
  { fs := fs0, jar := warmUpJar warm, attempted := 0, downloaded := 0,
    failed := 0, skipped := 0, kGet := 0, kHead := 0, kRand := 0,
    trace := [], exited := none }

/-- One full `main()` run (lines 805-1073): warm-up, the mandatory
document loop, then — unless `process.exit` already fired — the resume
scan of the now-current output directory and the chapter×heading grid. -/
def runAll (cfg : Config) (G : Nat → GetEvent) (H : Nat → HeadEvent) (R : Nat → ℚ)
    (warm : Option (Option (List String))) (additionalPdfs : List String)
    (fs0 : List (String × List Char)) : RunState :=
  let st1 := runMandatory cfg G H R additionalPdfs (initRunState warm fs0)
  if st1.exited.isSome then st1
  else
    let rf :=
      if cfg.resume && !cfg.dryRun then findResumePoint (st1.fs.map Prod.fst)
      else none
    runGrid cfg G H R rf st1

/-- Number of GET transactions in a trace. -/
def countGets : List Action → Nat
  | [] => 0
  | Action.getReq _ _ _ :: rest => countGets rest + 1
  | _ :: rest => countGets rest

/-- Number of HEAD transactions in a trace. -/
def countHeads : List Action → Nat
  | [] => 0
  | Action.headReq _ :: rest => countHeads rest + 1
  | _ :: rest => countHeads rest

/-! ## General lemmas -/

theorem string_data_append (a b : String) : (a ++ b).data = a.data ++ b.data := by
  cases a
  cases b
  rfl

theorem pad2_parse : ∀ n < 100, parseDec (pad2 n) = n := by decide

theorem pad2_length : ∀ n < 100, (pad2 n).data.length = 2 := by decide

theorem foldItems_of_exited {α : Type} (f : RunState → α → RunState) (st : RunState)
    (xs : List α) (h : st.exited.isSome) : foldItems f st xs = st := by
  induction xs with
  | nil => rfl
  | cons x xs ih =>
      show List.foldl _ (if st.exited.isSome then st else f st x) xs = st
      rw [if_pos h]
      exact ih

/-! ## One-step characterisations of `attemptDownload` -/

theorem attemptDownload_step_200 (G : Nat → GetEvent) (name jar : String)
    (retries mR fuel attempt rc k : Nat) (file : Option (List Char))
    (body : List Char) (loc : Option String) (sc : Option (List String))
    (hG : G k = .resp 200 loc body sc) (hrc : rc < mR) :
    attemptDownload G name retries mR (fuel + 1) file jar attempt rc k =
      { result := .ok { success := true, size := some body.length },
        file := some body, jar := extractCookies jar sc, k := k + 1,
        trace := [Action.getReq name attempt rc] } := by
  simp only [attemptDownload, hG]
  rw [if_neg (by omega)]
  simp [isRedirectStatus]

theorem attemptDownload_step_404 (G : Nat → GetEvent) (name jar : String)
    (retries mR fuel attempt rc k : Nat) (file : Option (List Char))
    (body : List Char) (loc : Option String) (sc : Option (List String))
    (hG : G k = .resp 404 loc body sc) (hrc : rc < mR) :
    attemptDownload G name retries mR (fuel + 1) file jar attempt rc k =
      { result := .ok { success := false, status := some 404, error := some "Not Found" },
        file := none, jar := extractCookies jar sc, k := k + 1,
        trace := [Action.getReq name attempt rc] } := by
  simp only [attemptDownload, hG]
  rw [if_neg (by omega)]
  simp [isRedirectStatus, deleteIfSmall]

theorem attemptDownload_step_overflow (G : Nat → GetEvent) (name jar : String)
    (retries mR fuel attempt rc k : Nat) (file : Option (List Char))
    (hrc : mR ≤ rc) :
    attemptDownload G name retries mR (fuel + 1) file jar attempt rc k =
      { result := .ok { success := false, status := some 0, error := some "Too many redirects" },
        file := file, jar := jar, k := k, trace := [] } := by
  simp only [attemptDownload]
  rw [if_pos hrc]

theorem attemptDownload_step_retry (G : Nat → GetEvent) (name jar : String)
    (retries mR fuel attempt rc k status : Nat) (file : Option (List Char))
    (body : List Char) (loc : Option String) (sc : Option (List String))
    (hG : G k = .resp status loc body sc) (hrc : rc < mR)
    (hnr : isRedirectStatus status = false) (h404 : status ≠ 404) (h200 : status ≠ 200)
    (hA : attempt < retries) :
    attemptDownload G name retries mR (fuel + 1) file jar attempt rc k =
      (let out := attemptDownload G name retries mR fuel (some []) (extractCookies jar sc)
        (attempt + 1) rc (k + 1)
       { out with trace := Action.getReq name attempt rc ::
          Action.sleep ((1000 * attempt : Nat) : ℚ) :: out.trace }) := by
  simp only [attemptDownload, hG]
  rw [if_neg (by omega)]
  simp only [hnr, Bool.false_eq_true, if_false]
  rw [if_neg (by simp [h404]), if_pos (by simp [h200]), if_pos hA]

theorem attemptDownload_step_final (G : Nat → GetEvent) (name jar : String)
    (retries mR fuel attempt rc k status : Nat) (file : Option (List Char))
    (body : List Char) (loc : Option String) (sc : Option (List String))
    (hG : G k = .resp status loc body sc) (hrc : rc < mR)
    (hnr : isRedirectStatus status = false) (h404 : status ≠ 404) (h200 : status ≠ 200)
    (hA : retries ≤ attempt) :
    attemptDownload G name retries mR (fuel + 1) file jar attempt rc k =
      { result := .ok ⟨false, some status, some ("HTTP " ++ toString status), none⟩,
        file := if 500 ≤ status then none else some [],
        jar := extractCookies jar sc, k := k + 1,
        trace := [Action.getReq name attempt rc] } := by
  simp only [attemptDownload, hG]
  rw [if_neg (by omega)]
  simp only [hnr, Bool.false_eq_true, if_false]
  rw [if_neg (by simp [h404]), if_pos (by simp [h200]), if_neg (by omega)]
  simp [deleteIfSmall, hA]

theorem attemptDownload_step_err (G : Nat → GetEvent) (name jar msg : String)
    (retries mR fuel attempt rc k : Nat) (file : Option (List Char))
    (hG : G k = .err msg) (hrc : rc < mR) (hA : attempt < retries) :
    attemptDownload G name retries mR (fuel + 1) file jar attempt rc k =
      (let out := attemptDownload G name retries mR fuel (some []) jar
        (attempt + 1) rc (k + 1)
       { out with trace := Action.getReq name attempt rc ::
          Action.sleep ((1000 * attempt : Nat) : ℚ) :: out.trace }) := by
  simp only [attemptDownload, hG]
  rw [if_neg (by omega)]
  simp [hA]

/-- `downloadFile`'s fuel in successor form. -/
theorem downloadFile_def (G : Nat → GetEvent) (name : String) (retries : Nat)
    (file : Option (List Char)) (jar : String) (k : Nat) :
    downloadFile G name retries file jar k =
      attemptDownload G name retries 5 ((retries + 5) + 1) file jar 1 0 k := rfl

/-! ## C3: PDF magic validation -/

/-- An HTML error page served with status 200. -/
def htmlBody : List Char := "<html><body>Download is not available right now.</body></html>".data

/-- C3 (counterexample): in the direct-HTTP strategy, a 200 response
whose body does not start with `%PDF` is reported as a success and its
body is left as the final file on disk — `downloadFile` performs no
content validation, contradicting the claimed delete-and-InvalidContent
behaviour. -/
theorem c3_counterexample :
    (downloadFile (fun _ => .resp 200 none htmlBody none) "0101_2022e.pdf" 3 none "" 0).result =
      .ok { success := true, size := some htmlBody.length } ∧
    (downloadFile (fun _ => .resp 200 none htmlBody none) "0101_2022e.pdf" 3 none "" 0).file =
      some htmlBody ∧
    isPrefixOfL pdfMagic htmlBody = false := by
  refine ⟨by decide, by decide, by decide⟩

/-- C3 (amended): only the browser-assisted strategy validates content:
`downloadPDF` never writes a buffer that does not start with `%PDF` (its
only disk write is a validated buffer), while the direct-HTTP
`downloadFile` leaves any 200 response body as the final file and
reports success regardless of the magic bytes. -/
theorem c3_pdf_magic (status : Nat) (body : List Char) (file : Option (List Char))
    (G : Nat → GetEvent) (name jar : String) (retries k : Nat)
    (loc : Option String) (sc : Option (List String))
    (hG : G k = .resp 200 loc body sc) :
    ((downloadPDF status body file).2 ≠ file →
      isPrefixOfL pdfMagic body = true ∧ (downloadPDF status body file).2 = some body) ∧
    ((downloadFile G name retries file jar k).file = some body ∧
      (downloadFile G name retries file jar k).result =
        .ok { success := true, size := some body.length }) := by
  constructor
  · intro hne
    unfold downloadPDF at hne ⊢
    split_ifs at hne ⊢ with h1 h2 h3 h4 h5
    any_goals exact absurd rfl hne
    simp only [Bool.or_eq_true, decide_eq_true_eq, Bool.not_eq_true'] at h5
    push_neg at h5
    have hpre : isPrefixOfL pdfMagic body = true := by
      have := h5.2
      revert this
      cases isPrefixOfL pdfMagic body <;> simp
    exact ⟨hpre, rfl⟩
  · rw [downloadFile_def, attemptDownload_step_200 G name jar retries 5 (retries + 5)
      1 0 k file body loc sc hG (by omega)]
    exact ⟨rfl, rfl⟩

theorem c3_pdf_magic_witness :
    ((downloadPDF 200 ('%' :: 'P' :: 'D' :: 'F' :: []) none).2 ≠ none →
      isPrefixOfL pdfMagic ('%' :: 'P' :: 'D' :: 'F' :: []) = true ∧
      (downloadPDF 200 ('%' :: 'P' :: 'D' :: 'F' :: []) none).2 =
        some ('%' :: 'P' :: 'D' :: 'F' :: [])) ∧
    ((downloadFile (fun _ => .resp 200 none ('%' :: 'P' :: 'D' :: 'F' :: []) none)
        "f.pdf" 3 none "" 0).file = some ('%' :: 'P' :: 'D' :: 'F' :: []) ∧
      (downloadFile (fun _ => .resp 200 none ('%' :: 'P' :: 'D' :: 'F' :: []) none)
        "f.pdf" 3 none "" 0).result =
        .ok { success := true, size := some ('%' :: 'P' :: 'D' :: 'F' :: []).length }) :=
  c3_pdf_magic 200 ('%' :: 'P' :: 'D' :: 'F' :: []) none
    (fun _ => .resp 200 none ('%' :: 'P' :: 'D' :: 'F' :: []) none) "f.pdf" "" 3 0
    none none rfl

/-! ## C6: retry policy -/

/-- C6 (counterexample): a redirect chain that exceeds the 5-hop limit.
The result is the terminal "Too many redirects" failure and the trace
shows five GET hops all on attempt 1 with no backoff sleep: the
redirect-loop outcome is returned immediately and is NOT retried,
contradicting the claim that RedirectLoop is retried as a transient
error with `attempt × baseBackoff` delay. -/
theorem c6_counterexample :
    (downloadFile (fun _ => .resp 301 (some "https://www.wcoomd.org/a/b.pdf") [] none)
        "f.pdf" 3 none "" 0).result =
      .ok { success := false, status := some 0, error := some "Too many redirects" } ∧
    (downloadFile (fun _ => .resp 301 (some "https://www.wcoomd.org/a/b.pdf") [] none)
        "f.pdf" 3 none "" 0).trace =
      [.getReq "f.pdf" 1 0, .getReq "f.pdf" 1 1, .getReq "f.pdf" 1 2,
       .getReq "f.pdf" 1 3, .getReq "f.pdf" 1 4] := by
  refine ⟨by decide, by decide⟩

/-- C6 (amended): the retry controller retries exactly the generic
non-200, non-redirect, non-404 HTTP statuses (which includes 403 and
429) and transport errors, with linearly increasing backoff
`attempt × 1000` ms; 404 (Absent) is terminal without retry; exceeding
the 5-hop redirect limit returns the "Too many redirects" failure
immediately, with no retry and no backoff (InvalidContent does not
occur in this strategy, so nothing retries it). -/
theorem c6_retry_policy (G : Nat → GetEvent) (name jar : String)
    (retries fuel attempt rc k : Nat) (file : Option (List Char)) :
    (5 ≤ rc →
      attemptDownload G name retries 5 (fuel + 1) file jar attempt rc k =
        { result := .ok ⟨false, some 0, some "Too many redirects", none⟩,
          file := file, jar := jar, k := k, trace := [] }) ∧
    (∀ loc body sc, rc < 5 → G k = .resp 404 loc body sc →
      attemptDownload G name retries 5 (fuel + 1) file jar attempt rc k =
        { result := .ok ⟨false, some 404, some "Not Found", none⟩,
          file := none, jar := extractCookies jar sc, k := k + 1,
          trace := [Action.getReq name attempt rc] }) ∧
    (∀ status loc body sc, rc < 5 → G k = .resp status loc body sc →
      isRedirectStatus status = false → status ≠ 404 → status ≠ 200 →
      attempt < retries →
      attemptDownload G name retries 5 (fuel + 1) file jar attempt rc k =
        (let out := attemptDownload G name retries 5 fuel (some [])
          (extractCookies jar sc) (attempt + 1) rc (k + 1)
         { out with trace := Action.getReq name attempt rc ::
            Action.sleep ((1000 * attempt : Nat) : ℚ) :: out.trace })) ∧
    (∀ msg, rc < 5 → G k = .err msg → attempt < retries →
      attemptDownload G name retries 5 (fuel + 1) file jar attempt rc k =
        (let out := attemptDownload G name retries 5 fuel (some []) jar
          (attempt + 1) rc (k + 1)
         { out with trace := Action.getReq name attempt rc ::
            Action.sleep ((1000 * attempt : Nat) : ℚ) :: out.trace })) := by
  refine ⟨?_, ?_, ?_, ?_⟩
  · intro h
    exact attemptDownload_step_overflow G name jar retries 5 fuel attempt rc k file h
  · intro loc body sc h hG
    exact attemptDownload_step_404 G name jar retries 5 fuel attempt rc k file body loc sc hG h
  · intro status loc body sc h hG hnr h404 h200 hA
    exact attemptDownload_step_retry G name jar retries 5 fuel attempt rc k status file
      body loc sc hG h hnr h404 h200 hA
  · intro msg h hG hA
    exact attemptDownload_step_err G name jar msg retries 5 fuel attempt rc k file hG h hA

theorem c6_retry_policy_witness :
    (attemptDownload (fun _ => GetEvent.resp 503 none [] none) "f.pdf" 3 5 8 none "" 1 5 0 =
      { result := .ok ⟨false, some 0, some "Too many redirects", none⟩,
        file := none, jar := "", k := 0, trace := [] }) ∧
    (attemptDownload (fun _ => GetEvent.resp 404 none [] none) "f.pdf" 3 5 8 none "" 1 0 0 =
      { result := .ok { success := false, status := some 404, error := some "Not Found" },
        file := none, jar := extractCookies "" none, k := 1,
        trace := [Action.getReq "f.pdf" 1 0] }) ∧
    (attemptDownload (fun _ => GetEvent.resp 503 none [] none) "f.pdf" 3 5 8 none "" 1 0 0 =
      (let out := attemptDownload (fun _ => GetEvent.resp 503 none [] none) "f.pdf" 3 5 7
        (some []) (extractCookies "" none) 2 0 1
       { out with trace := Action.getReq "f.pdf" 1 0 ::
          Action.sleep ((1000 * 1 : Nat) : ℚ) :: out.trace })) ∧
    (attemptDownload (fun _ => GetEvent.err "reset") "f.pdf" 3 5 8 none "" 1 0 0 =
      (let out := attemptDownload (fun _ => GetEvent.err "reset") "f.pdf" 3 5 7
        (some []) "" 2 0 1
       { out with trace := Action.getReq "f.pdf" 1 0 ::
          Action.sleep ((1000 * 1 : Nat) : ℚ) :: out.trace })) := by
  refine ⟨(c6_retry_policy (fun _ => GetEvent.resp 503 none [] none) "f.pdf" "" 3 7 1 5 0
      none).1 (by decide),
    (c6_retry_policy (fun _ => GetEvent.resp 404 none [] none) "f.pdf" "" 3 7 1 0 0
      none).2.1 none [] none (by decide) rfl,
    (c6_retry_policy (fun _ => GetEvent.resp 503 none [] none) "f.pdf" "" 3 7 1 0 0
      none).2.2.1 503 none [] none (by decide) rfl (by decide) (by decide) (by decide)
      (by decide),
    (c6_retry_policy (fun _ => GetEvent.err "reset") "f.pdf" "" 3 7 1 0 0
      none).2.2.2 "reset" (by decide) rfl (by decide)⟩

/-! ## Unfolding lemmas for `processFile` -/

/-- When the file is absent locally (and the run is not a dry run), both
skip checks fall through and the item goes straight to `downloadFile`. -/
theorem processFile_no_local (cfg : Config) (G : Nat → GetEvent) (H : Nat → HeadEvent)
    (R : Nat → ℚ) (st : RunState) (filename : String)
    (habs : lookupFile st.fs filename = none) (hdry : cfg.dryRun = false) :
    processFile cfg G H R st filename =
      (let fo := downloadFile G filename cfg.retries none st.jar st.kGet
       let st3 : RunState :=
         { st with
           attempted := st.attempted + 1, fs := setFile st.fs filename fo.file,
           jar := fo.jar, kGet := fo.k, trace := st.trace ++ fo.trace }
       let st4 : RunState :=
         match fo.result with
         | .ok r =>
             if r.success then { st3 with downloaded := st3.downloaded + 1 }
             else if r.status == some 404 then { st3 with exited := some 1 }
             else { st3 with failed := st3.failed + 1 }
         | .error _ => { st3 with failed := st3.failed + 1 }
       if st4.exited.isSome then st4
       else if 0 < cfg.delay then
         { st4 with
           kRand := st4.kRand + 1,
           trace := st4.trace ++
             [Action.sleep (getRandomDelay cfg.delay cfg.delayVariation (R st4.kRand))] }
       else st4) := by
  unfold processFile
  simp only [habs, hdry, Option.isSome_none, Bool.and_false, Bool.false_and,
    Bool.if_false_left, Bool.and_true, Bool.not_false, Bool.and_self]
  rfl

/-! ## C5: 403/429 handling -/

/-- With a constant non-redirect, non-404, non-200 status the retry
loop eventually resolves with the plain `HTTP <status>` failure. -/
theorem attemptDownload_const_fail (G : Nat → GetEvent) (name : String)
    (retries status : Nat)
    (hG : ∀ i, G i = .resp status none [] none)
    (hnr : isRedirectStatus status = false) (h404 : status ≠ 404) (h200 : status ≠ 200) :
    ∀ fuel attempt rc k (jar : String) (file : Option (List Char)),
      rc < 5 → retries - attempt < fuel →
      (attemptDownload G name retries 5 fuel file jar attempt rc k).result =
        .ok ⟨false, some status, some ("HTTP " ++ toString status), none⟩ := by
  intro fuel
  induction fuel with
  | zero => intro attempt rc k jar file hrc hf; omega
  | succ fuel ih =>
      intro attempt rc k jar file hrc hf
      by_cases hA : attempt < retries
      · rw [attemptDownload_step_retry G name jar retries 5 fuel attempt rc k status file
          [] none none (hG k) hrc hnr h404 h200 hA]
        exact ih (attempt + 1) rc (k + 1) (extractCookies jar none) (some []) hrc (by omega)
      · rw [attemptDownload_step_final G name jar retries 5 fuel attempt rc k status file
          [] none none (hG k) hrc hnr h404 h200 (by omega)]

/-- A baseline configuration shared by the concrete runs: edition 2022,
chapter range "1", zero delay, three retries, default skip behaviour. -/
def cfg0 : Config :=
  { edition := "2022", chapters := [1], delay := 0, delayVariation := 0, retries := 3,
    resume := false, dryRun := false, checkExisting := true, skipExisting := false }

/-- C5 (counterexample): with every response being 403, a fetch is
attempted three times with backoff (so a 403 is NOT terminal for the
item), its final outcome is the generic `HTTP 403` failure, and a whole
single-chapter run over such a server finishes without any abort: no
exit is recorded and all 99 grid items are counted as failed — the run
never transitions to Aborted, contradicting the claim. -/
theorem c5_counterexample :
    (downloadFile (fun _ => .resp 403 none [] none) "f.pdf" 3 none "" 0).trace =
      [.getReq "f.pdf" 1 0, .sleep 1000, .getReq "f.pdf" 2 0, .sleep 2000,
       .getReq "f.pdf" 3 0] ∧
    (downloadFile (fun _ => .resp 403 none [] none) "f.pdf" 3 none "" 0).result =
      .ok ⟨false, some 403, some "HTTP 403", none⟩ ∧
    (runAll cfg0 (fun _ => .resp 403 none [] none) (fun _ => .err) (fun _ => 0)
      none [] []).exited = none ∧
    (runAll cfg0 (fun _ => .resp 403 none [] none) (fun _ => .err) (fun _ => 0)
      none [] []).failed = 99 := by
  refine ⟨by decide, by decide, by decide, by decide⟩

/-- C5 (amended): 403 and 429 are not classified specially by the
direct-HTTP script: like any other non-200, non-redirect, non-404
status they are retried with `1000 × attempt` ms backoff while attempts
remain, the exhausted outcome is the plain `HTTP <status>` failure, and
the orchestrator then records the item as failed and continues the run
(no Aborted transition, exit code unchanged). -/
theorem c5_blocked_not_aborting (cfg : Config) (G : Nat → GetEvent) (H : Nat → HeadEvent)
    (R : Nat → ℚ) (st : RunState) (filename : String) (status : Nat)
    (hstatus : status = 403 ∨ status = 429)
    (hG : ∀ i, G i = .resp status none [] none)
    (hdry : cfg.dryRun = false)
    (habs : lookupFile st.fs filename = none)
    (hexit : st.exited = none)
    (hr : 1 ≤ cfg.retries) :
    (∀ fuel attempt rc k (jar : String) (file : Option (List Char)),
      rc < 5 → attempt < cfg.retries →
      (attemptDownload G filename cfg.retries 5 (fuel + 1) file jar attempt rc k).trace =
        Action.getReq filename attempt rc ::
          Action.sleep ((1000 * attempt : Nat) : ℚ) ::
          (attemptDownload G filename cfg.retries 5 fuel (some [])
            (extractCookies jar none) (attempt + 1) rc (k + 1)).trace) ∧
    (downloadFile G filename cfg.retries none st.jar st.kGet).result =
      .ok ⟨false, some status, some ("HTTP " ++ toString status), none⟩ ∧
    (processFile cfg G H R st filename).failed = st.failed + 1 ∧
    (processFile cfg G H R st filename).exited = none := by
  have hnr : isRedirectStatus status = false := by
    rcases hstatus with h | h <;> subst h <;> decide
  have h404 : status ≠ 404 := by rcases hstatus with h | h <;> omega
  have h200 : status ≠ 200 := by rcases hstatus with h | h <;> omega
  have htrace : ∀ fuel attempt rc k (jar : String) (file : Option (List Char)),
      rc < 5 → attempt < cfg.retries →
      (attemptDownload G filename cfg.retries 5 (fuel + 1) file jar attempt rc k).trace =
        Action.getReq filename attempt rc ::
          Action.sleep ((1000 * attempt : Nat) : ℚ) ::
          (attemptDownload G filename cfg.retries 5 fuel (some [])
            (extractCookies jar none) (attempt + 1) rc (k + 1)).trace := by
    intro fuel attempt rc k jar file hrc hA
    rw [attemptDownload_step_retry G filename jar cfg.retries 5 fuel attempt rc k status
      file [] none none (hG k) hrc hnr h404 h200 hA]
  have hres : (downloadFile G filename cfg.retries none st.jar st.kGet).result =
      .ok ⟨false, some status, some ("HTTP " ++ toString status), none⟩ := by
    rw [downloadFile_def]
    exact attemptDownload_const_fail G filename cfg.retries status hG hnr h404 h200
      ((cfg.retries + 5) + 1) 1 0 st.kGet st.jar none (by omega) (by omega)
  refine ⟨htrace, hres, ?_⟩
  rw [processFile_no_local cfg G H R st filename habs hdry]
  simp only [hres]
  have hne : (some status == some 404) = false := by
    simp [h404]
  simp only [hne, Bool.false_eq_true, if_false]
  constructor
  · split_ifs <;> rfl
  · split_ifs <;> simp [hexit]

theorem c5_blocked_not_aborting_witness :
    ((∀ fuel attempt rc k (jar : String) (file : Option (List Char)),
      rc < 5 → attempt < cfg0.retries →
      (attemptDownload (fun _ => .resp 403 none [] none) "f.pdf" cfg0.retries 5
          (fuel + 1) file jar attempt rc k).trace =
        Action.getReq "f.pdf" attempt rc ::
          Action.sleep ((1000 * attempt : Nat) : ℚ) ::
          (attemptDownload (fun _ => .resp 403 none [] none) "f.pdf" cfg0.retries 5
            fuel (some []) (extractCookies jar none) (attempt + 1) rc (k + 1)).trace) ∧
    (downloadFile (fun _ => .resp 403 none [] none) "f.pdf" cfg0.retries none
        (initRunState none []).jar (initRunState none []).kGet).result =
      .ok ⟨false, some 403, some ("HTTP " ++ toString 403), none⟩ ∧
    (processFile cfg0 (fun _ => .resp 403 none [] none) (fun _ => .err) (fun _ => 0)
        (initRunState none []) "f.pdf").failed = (initRunState none []).failed + 1 ∧
    (processFile cfg0 (fun _ => .resp 403 none [] none) (fun _ => .err) (fun _ => 0)
        (initRunState none []) "f.pdf").exited = none) :=
  c5_blocked_not_aborting cfg0 (fun _ => .resp 403 none [] none) (fun _ => .err)
    (fun _ => 0) (initRunState none []) "f.pdf" 403 (Or.inl rfl) (fun _ => rfl)
    rfl rfl rfl (by decide)

/-! ## C7: change detector -/

/-- With no local size, every path of the HEAD check reports "changed". -/
theorem checkFileAux_none_changed (H : Nat → HeadEvent) (name : String) :
    ∀ fuel rc k, (checkFileAux H name 5 none fuel rc k).changed = true := by
  intro fuel
  induction fuel with
  | zero => intro rc k; rfl
  | succ fuel ih =>
      intro rc k
      unfold checkFileAux
      by_cases hrc : 5 ≤ rc
      · rw [if_pos hrc]
      · rw [if_neg hrc]
        cases hH : H k with
        | err => rfl
        | timeout => rfl
        | resp status loc cl =>
            by_cases hred : isRedirectStatus status = true
            · simp only [hred, if_true]
              cases loc with
              | none => rfl
              | some l => exact ih (rc + 1) (k + 1)
            · simp only [Bool.not_eq_true] at hred
              simp only [hred, Bool.false_eq_true, if_false]
              split_ifs <;> rfl

/-- One-step evaluation of the HEAD check on a direct 200 response. -/
theorem checkFileChanged_200 (H : Nat → HeadEvent) (name : String) (k ls n : Nat)
    (loc : Option String) (hH : H k = .resp 200 loc (some n)) :
    checkFileChanged H name (some ls) k =
      { changed := decide (ls ≠ n), k := k + 1, trace := [Action.headReq name] } := by
  show checkFileAux H name 5 (some ls) (5 + 1) 0 k = _
  unfold checkFileAux
  rw [if_neg (by omega), hH]
  simp [isRedirectStatus]

/-- One-step evaluation of the HEAD check on an `error` event. -/
theorem checkFileChanged_err (H : Nat → HeadEvent) (name : String) (k : Nat)
    (ls : Option Nat) (hH : H k = .err) :
    checkFileChanged H name ls k =
      { changed := true, k := k + 1, trace := [Action.headReq name] } := by
  show checkFileAux H name 5 ls (5 + 1) 0 k = _
  unfold checkFileAux
  rw [if_neg (by omega), hH]

/-- One-step evaluation of the HEAD check on the timeout path. -/
theorem checkFileChanged_timeout (H : Nat → HeadEvent) (name : String) (k : Nat)
    (ls : Option Nat) (hH : H k = .timeout) :
    checkFileChanged H name ls k =
      { changed := true, k := k + 1, trace := [Action.headReq name] } := by
  show checkFileAux H name 5 ls (5 + 1) 0 k = _
  unfold checkFileAux
  rw [if_neg (by omega), hH]

/-- One-step evaluation of the HEAD check on a non-redirect error status. -/
theorem checkFileChanged_badStatus (H : Nat → HeadEvent) (name : String) (k status : Nat)
    (ls : Option Nat) (loc : Option String) (cl : Option Nat)
    (hH : H k = .resp status loc cl) (hnr : isRedirectStatus status = false)
    (h200 : status ≠ 200) :
    checkFileChanged H name ls k =
      { changed := true, k := k + 1, trace := [Action.headReq name] } := by
  show checkFileAux H name 5 ls (5 + 1) 0 k = _
  unfold checkFileAux
  rw [if_neg (by omega), hH]
  simp only [hnr, Bool.false_eq_true, if_false]
  by_cases h404 : status = 404
  · subst h404; rfl
  · rw [if_neg (by simp [h404]), if_pos (by simp [h200])]

/-- When an existing file passes the `--check-existing` HEAD comparison
as unchanged, the item is counted as skipped and nothing else happens:
no GET is issued, the directory is untouched, and the only emitted
actions are the optional half-delay sleep and the HEAD transactions. -/
theorem processFile_head_skip (cfg : Config) (G : Nat → GetEvent) (H : Nat → HeadEvent)
    (R : Nat → ℚ) (st : RunState) (filename : String) (content : List Char)
    (hchk : cfg.checkExisting = true) (hskip : cfg.skipExisting = false)
    (hdry : cfg.dryRun = false) (hfs : lookupFile st.fs filename = some content)
    (hch : (checkFileChanged H filename (some content.length) st.kHead).changed = false) :
    processFile cfg G H R st filename =
      (let st1 : RunState :=
        if 0 < cfg.delay then
          { st with
            attempted := st.attempted + 1, kRand := st.kRand + 1,
            trace := st.trace ++
              [Action.sleep (getRandomDelay (cfg.delay / 2) (cfg.delayVariation / 2)
                (R st.kRand))] }
        else { st with attempted := st.attempted + 1 }
       { st1 with
         kHead := (checkFileChanged H filename (some content.length) st.kHead).k,
         trace := st1.trace ++
           (checkFileChanged H filename (some content.length) st.kHead).trace,
         skipped := st1.skipped + 1 }) := by
  unfold processFile
  simp only [hchk, hskip, hdry, hfs, Option.isSome_some, Bool.false_and, Bool.and_false,
    Bool.false_eq_true, if_false, Bool.not_false, Bool.and_true, Bool.true_and,
    Bool.and_self, if_true]
  by_cases hd : 0 < cfg.delay
  · simp only [hd, if_true]
    simp only [hfs, Option.map_some', hch, Bool.false_eq_true, if_false]
  · simp only [hd, if_false]
    simp only [hfs, Option.map_some', hch, Bool.false_eq_true, if_false]

theorem countGets_append (a b : List Action) :
    countGets (a ++ b) = countGets a + countGets b := by
  induction a with
  | nil => simp [countGets]
  | cons x xs ih => cases x <;> simp [countGets, ih] <;> omega

theorem countHeads_append (a b : List Action) :
    countHeads (a ++ b) = countHeads a + countHeads b := by
  induction a with
  | nil => simp [countHeads]
  | cons x xs ih => cases x <;> simp [countHeads, ih] <;> omega

/-- C7: the change detector reports "changed" whenever there is no
local size; on a 200 HEAD response with a `Content-Length` it reports
"unchanged" exactly when that length equals the local byte size; every
HEAD-level failure — request error, timeout, non-200 status,
redirect-limit overflow — conservatively reports "changed"; and in the
batch loop an existing file whose size matches the remote
`Content-Length` is skipped after only the HEAD: the skipped counter is
incremented and no GET is issued for the file (the GET oracle position
and GET count are untouched, the directory unchanged, exactly one HEAD
added). -/
theorem c7_change_detector :
    (∀ H name fuel rc k, (checkFileAux H name 5 none fuel rc k).changed = true) ∧
    (∀ H name k ls n loc, H k = HeadEvent.resp 200 loc (some n) →
      ((checkFileChanged H name (some ls) k).changed = false ↔ ls = n)) ∧
    (∀ H name ls k, H k = HeadEvent.err →
      (checkFileChanged H name ls k).changed = true) ∧
    (∀ H name ls k, H k = HeadEvent.timeout →
      (checkFileChanged H name ls k).changed = true) ∧
    (∀ H name ls k status loc cl, H k = HeadEvent.resp status loc cl →
      isRedirectStatus status = false → status ≠ 200 →
      (checkFileChanged H name ls k).changed = true) ∧
    (∀ H name ls fuel rc k, 5 ≤ rc →
      (checkFileAux H name 5 ls fuel rc k).changed = true) ∧
    (∀ cfg G H R st filename content loc,
      cfg.checkExisting = true → cfg.skipExisting = false → cfg.dryRun = false →
      lookupFile st.fs filename = some content →
      H st.kHead = HeadEvent.resp 200 loc (some content.length) →
      (processFile cfg G H R st filename).skipped = st.skipped + 1 ∧
      (processFile cfg G H R st filename).kGet = st.kGet ∧
      (processFile cfg G H R st filename).fs = st.fs ∧
      countGets (processFile cfg G H R st filename).trace = countGets st.trace ∧
      countHeads (processFile cfg G H R st filename).trace = countHeads st.trace + 1) := by
  refine ⟨checkFileAux_none_changed, ?_, ?_, ?_, ?_, ?_, ?_⟩
  · intro H name k ls n loc hH
    rw [checkFileChanged_200 H name k ls n loc hH]
    simp
  · intro H name ls k hH
    rw [checkFileChanged_err H name k ls hH]
  · intro H name ls k hH
    rw [checkFileChanged_timeout H name k ls hH]
  · intro H name ls k status loc cl hH hnr h200
    rw [checkFileChanged_badStatus H name k status ls loc cl hH hnr h200]
  · intro H name ls fuel rc k hrc
    cases fuel with
    | zero => rfl
    | succ fuel =>
        unfold checkFileAux
        rw [if_pos hrc]
  · intro cfg G H R st filename content loc hchk hskip hdry hfs hH
    have hch : (checkFileChanged H filename (some content.length) st.kHead).changed = false := by
      rw [checkFileChanged_200 H filename st.kHead content.length content.length loc hH]
      simp
    rw [processFile_head_skip cfg G H R st filename content hchk hskip hdry hfs hch]
    rw [checkFileChanged_200 H filename st.kHead content.length content.length loc hH]
    by_cases hd : 0 < cfg.delay
    · simp only [hd, if_true]
      simp [countGets_append, countGets, countHeads_append, countHeads]
    · simp only [hd, if_false]
      simp [countGets_append, countGets, countHeads_append, countHeads]

/-- A sample directory entry for the C7 witness. -/
def sampleFs : List (String × List Char) := [("0101_2022e.pdf", htmlBody)]

theorem c7_change_detector_witness :
    ((checkFileChanged (fun _ => HeadEvent.resp 200 none (some 4)) "f.pdf"
        (some 4) 0).changed = false ↔ 4 = 4) ∧
    ((processFile cfg0 (fun _ => GetEvent.err "unused")
        (fun _ => HeadEvent.resp 200 none (some htmlBody.length)) (fun _ => 0)
        (initRunState none sampleFs) "0101_2022e.pdf").skipped =
      (initRunState none sampleFs).skipped + 1 ∧
     (processFile cfg0 (fun _ => GetEvent.err "unused")
        (fun _ => HeadEvent.resp 200 none (some htmlBody.length)) (fun _ => 0)
        (initRunState none sampleFs) "0101_2022e.pdf").kGet =
      (initRunState none sampleFs).kGet ∧
     (processFile cfg0 (fun _ => GetEvent.err "unused")
        (fun _ => HeadEvent.resp 200 none (some htmlBody.length)) (fun _ => 0)
        (initRunState none sampleFs) "0101_2022e.pdf").fs =
      (initRunState none sampleFs).fs ∧
     countGets (processFile cfg0 (fun _ => GetEvent.err "unused")
        (fun _ => HeadEvent.resp 200 none (some htmlBody.length)) (fun _ => 0)
        (initRunState none sampleFs) "0101_2022e.pdf").trace =
      countGets (initRunState none sampleFs).trace ∧
     countHeads (processFile cfg0 (fun _ => GetEvent.err "unused")
        (fun _ => HeadEvent.resp 200 none (some htmlBody.length)) (fun _ => 0)
        (initRunState none sampleFs) "0101_2022e.pdf").trace =
      countHeads (initRunState none sampleFs).trace + 1) :=
  ⟨c7_change_detector.2.1 (fun _ => HeadEvent.resp 200 none (some 4)) "f.pdf" 0 4 4
      none rfl,
   c7_change_detector.2.2.2.2.2.2 cfg0 (fun _ => GetEvent.err "unused")
      (fun _ => HeadEvent.resp 200 none (some htmlBody.length)) (fun _ => 0)
      (initRunState none sampleFs) "0101_2022e.pdf" htmlBody none
      rfl rfl rfl (by decide) rfl⟩

/-! ## C1 and C2: the 404 policy -/

/-- The state an exited `processFile` leaves behind when the download
settled with a 404: everything the fetch already changed, the exit code,
and no trailing pacing sleep. -/
theorem processFile_404_exits (cfg : Config) (G : Nat → GetEvent) (H : Nat → HeadEvent)
    (R : Nat → ℚ) (st : RunState) (filename : String) (r : DownloadResult)
    (hdry : cfg.dryRun = false) (habs : lookupFile st.fs filename = none)
    (hres : (downloadFile G filename cfg.retries none st.jar st.kGet).result = .ok r)
    (hsucc : r.success = false) (h404 : r.status = some 404) :
    processFile cfg G H R st filename =
      { st with
        attempted := st.attempted + 1,
        fs := setFile st.fs filename
          (downloadFile G filename cfg.retries none st.jar st.kGet).file,
        jar := (downloadFile G filename cfg.retries none st.jar st.kGet).jar,
        kGet := (downloadFile G filename cfg.retries none st.jar st.kGet).k,
        trace := st.trace ++ (downloadFile G filename cfg.retries none st.jar st.kGet).trace,
        exited := some 1 } := by
  rw [processFile_no_local cfg G H R st filename habs hdry]
  simp only [hres, hsucc, h404, beq_self_eq_true, if_true, Bool.false_eq_true, if_false,
    Option.isSome_some]

/-- C2: a 404 outcome of a mandatory-document download calls
`process.exit(1)` at once: the item ends with exit code 1, adding
nothing beyond the fetch trace (in particular no pacing sleep), and a
recorded exit stops everything — the remaining loop items are untouched
and the whole run collapses to the mandatory phase, so the resume scan,
the grid, and any further network action never happen. -/
theorem c2_mandatory_404_fail_fast
    (cfg : Config) (G : Nat → GetEvent) (H : Nat → HeadEvent) (R : Nat → ℚ)
    (warm : Option (Option (List String))) (pdfs : List String)
    (fs0 : List (String × List Char)) (st : RunState) (filename : String)
    (r : DownloadResult)
    (hdry : cfg.dryRun = false) (habs : lookupFile st.fs filename = none)
    (hres : (downloadFile G filename cfg.retries none st.jar st.kGet).result = .ok r)
    (hsucc : r.success = false) (h404 : r.status = some 404) :
    (processFile cfg G H R st filename).exited = some 1 ∧
    (processFile cfg G H R st filename).trace =
      st.trace ++ (downloadFile G filename cfg.retries none st.jar st.kGet).trace ∧
    (∀ (α : Type) (xs : List α) (f : RunState → α → RunState) (s : RunState),
      s.exited.isSome → foldItems f s xs = s) ∧
    ((runMandatory cfg G H R pdfs (initRunState warm fs0)).exited.isSome →
      runAll cfg G H R warm pdfs fs0 =
        runMandatory cfg G H R pdfs (initRunState warm fs0)) := by
  have hmain := processFile_404_exits cfg G H R st filename r hdry habs hres hsucc h404
  refine ⟨by rw [hmain], by rw [hmain], ?_, ?_⟩
  · intro α xs f s h
    exact foldItems_of_exited f s xs h
  · intro h
    show (let st1 := runMandatory cfg G H R pdfs (initRunState warm fs0)
          if st1.exited.isSome then st1 else _) = _
    simp only [h, if_true]

theorem c2_mandatory_404_fail_fast_witness :
    (processFile cfg0 (fun _ => GetEvent.resp 404 none [] none) (fun _ => HeadEvent.err)
        (fun _ => 0) (initRunState none []) "introduction_2022e.pdf").exited = some 1 ∧
    (processFile cfg0 (fun _ => GetEvent.resp 404 none [] none) (fun _ => HeadEvent.err)
        (fun _ => 0) (initRunState none []) "introduction_2022e.pdf").trace =
      (initRunState none []).trace ++
        (downloadFile (fun _ => GetEvent.resp 404 none [] none) "introduction_2022e.pdf"
          cfg0.retries none (initRunState none []).jar (initRunState none []).kGet).trace ∧
    (∀ (α : Type) (xs : List α) (f : RunState → α → RunState) (s : RunState),
      s.exited.isSome → foldItems f s xs = s) ∧
    ((runMandatory cfg0 (fun _ => GetEvent.resp 404 none [] none) (fun _ => HeadEvent.err)
        (fun _ => 0) ["introduction_{EDITION}e.pdf"] (initRunState none [])).exited.isSome →
      runAll cfg0 (fun _ => GetEvent.resp 404 none [] none) (fun _ => HeadEvent.err)
          (fun _ => 0) none ["introduction_{EDITION}e.pdf"] [] =
        runMandatory cfg0 (fun _ => GetEvent.resp 404 none [] none) (fun _ => HeadEvent.err)
          (fun _ => 0) ["introduction_{EDITION}e.pdf"] (initRunState none [])) :=
  c2_mandatory_404_fail_fast cfg0 (fun _ => GetEvent.resp 404 none [] none)
    (fun _ => HeadEvent.err) (fun _ => 0) none ["introduction_{EDITION}e.pdf"] []
    (initRunState none []) "introduction_2022e.pdf"
    ⟨false, some 404, some "Not Found", none⟩ rfl rfl (by decide) rfl rfl

/-- C1 (counterexample): a single-chapter run in which every grid fetch
returns 404.  The very first grid item (chapter 1 heading 01) kills the
run: `process.exit(1)` is recorded, neither the skipped nor the failed
counter moves, and only one GET was ever issued — enumeration did not
continue past the 404, contradicting the claimed skip-and-continue
behaviour. -/
theorem c1_counterexample :
    (runAll cfg0 (fun _ => GetEvent.resp 404 none [] none) (fun _ => HeadEvent.err)
      (fun _ => 0) none [] []).exited = some 1 ∧
    (runAll cfg0 (fun _ => GetEvent.resp 404 none [] none) (fun _ => HeadEvent.err)
      (fun _ => 0) none [] []).skipped = 0 ∧
    (runAll cfg0 (fun _ => GetEvent.resp 404 none [] none) (fun _ => HeadEvent.err)
      (fun _ => 0) none [] []).failed = 0 ∧
    countGets (runAll cfg0 (fun _ => GetEvent.resp 404 none [] none) (fun _ => HeadEvent.err)
      (fun _ => 0) none [] []).trace = 1 ∧
    (runAll cfg0 (fun _ => GetEvent.resp 404 none [] none) (fun _ => HeadEvent.err)
      (fun _ => 0) none [] []).attempted = 1 := by
  refine ⟨by decide, by decide, by decide, by decide, by decide⟩

/-- C1 (amended): a speculative grid item whose download returns 404 is
treated like a mandatory one: the run exits immediately with code 1,
the skipped and failed counters are both left unchanged, and grid
enumeration halts — once the exit is recorded no later pair of the loop
is processed. -/
theorem c1_grid_404_aborts (cfg : Config) (G : Nat → GetEvent) (H : Nat → HeadEvent)
    (R : Nat → ℚ) (chapter : Nat) (heading : String) (st : RunState) (r : DownloadResult)
    (hdry : cfg.dryRun = false)
    (habs : lookupFile st.fs (coordFilename cfg.edition chapter heading) = none)
    (hres : (downloadFile G (coordFilename cfg.edition chapter heading) cfg.retries none
      st.jar st.kGet).result = .ok r)
    (hsucc : r.success = false) (h404 : r.status = some 404) :
    (processGridItem cfg G H R none chapter st heading).exited = some 1 ∧
    (processGridItem cfg G H R none chapter st heading).skipped = st.skipped ∧
    (processGridItem cfg G H R none chapter st heading).failed = st.failed ∧
    (∀ (α : Type) (xs : List α) (f : RunState → α → RunState) (s : RunState),
      s.exited.isSome → foldItems f s xs = s) := by
  have hmain := processFile_404_exits cfg G H R st (coordFilename cfg.edition chapter heading)
    r hdry habs hres hsucc h404
  have hitem : processGridItem cfg G H R none chapter st heading =
      processFile cfg G H R st (coordFilename cfg.edition chapter heading) := rfl
  refine ⟨?_, ?_, ?_, ?_⟩
  · rw [hitem, hmain]
  · rw [hitem, hmain]
  · rw [hitem, hmain]
  · intro α xs f s h
    exact foldItems_of_exited f s xs h

theorem c1_grid_404_aborts_witness :
    (processGridItem cfg0 (fun _ => GetEvent.resp 404 none [] none) (fun _ => HeadEvent.err)
        (fun _ => 0) none 1 (initRunState none []) "01").exited = some 1 ∧
    (processGridItem cfg0 (fun _ => GetEvent.resp 404 none [] none) (fun _ => HeadEvent.err)
        (fun _ => 0) none 1 (initRunState none []) "01").skipped =
      (initRunState none []).skipped ∧
    (processGridItem cfg0 (fun _ => GetEvent.resp 404 none [] none) (fun _ => HeadEvent.err)
        (fun _ => 0) none 1 (initRunState none []) "01").failed =
      (initRunState none []).failed ∧
    (∀ (α : Type) (xs : List α) (f : RunState → α → RunState) (s : RunState),
      s.exited.isSome → foldItems f s xs = s) :=
  c1_grid_404_aborts cfg0 (fun _ => GetEvent.resp 404 none [] none) (fun _ => HeadEvent.err)
    (fun _ => 0) 1 "01" (initRunState none [])
    ⟨false, some 404, some "Not Found", none⟩ rfl rfl (by decide) rfl rfl

/-! ## C8: resume cursor -/

/-- Sample PDF file content (larger than the 100-byte stub threshold). -/
def pdfBytes : List Char :=
  '%' :: 'P' :: 'D' :: 'F' ::
    "-1.4 sample content sample content sample content sample content sample content sample".data

/-- `cfg0` with `--resume`. -/
def cfgResume : Config := { cfg0 with resume := true }

/-- An output directory holding exactly `0101`–`0105` of edition 2022. -/
def fsFive : List (String × List Char) :=
  [("0101_2022e.pdf", pdfBytes), ("0102_2022e.pdf", pdfBytes), ("0103_2022e.pdf", pdfBytes),
   ("0104_2022e.pdf", pdfBytes), ("0105_2022e.pdf", pdfBytes)]

/-- An output directory holding a coordinate file and the mandatory
introduction file (the normal situation after any full run). -/
def fsWithIntro : List (String × List Char) :=
  [("0101_2022e.pdf", pdfBytes), ("introduction_2022e.pdf", pdfBytes)]

/-- C8 (counterexample): the resume scan parses only the
lexicographically greatest `.pdf` filename.  With the (always-present)
`introduction_2022e.pdf` in the directory, that greatest name does not
match the coordinate pattern, so no cursor is set at all — even though
`0101_2022e.pdf` matches and the claim's cursor would be `(1, 01)` —
and the resumed run issues a network request (a HEAD) for the pair
`(1, 01)`, which the claim says must be skipped without any network
call. -/
theorem c8_counterexample :
    findResumePoint ["0101_2022e.pdf", "introduction_2022e.pdf"] = none ∧
    parseCoordFilename "0101_2022e.pdf" = some ⟨1, 1⟩ ∧
    (runAll cfgResume (fun _ => GetEvent.resp 200 none pdfBytes none)
        (fun _ => HeadEvent.resp 200 none (some 999)) (fun _ => 0)
        none [] fsWithIntro).trace.head? =
      some (Action.headReq "0101_2022e.pdf") := by
  refine ⟨by decide, by decide, by decide⟩

/-- C8 (amended): the resume cursor is the `(chapter, heading)` parse of
the lexicographically greatest `.pdf` filename in the output directory,
and it is set only when that single greatest name matches the
coordinate pattern (otherwise resume is a no-op).  When a cursor
`(c, h)` exists, chapters before `c` and headings up to `h` within
chapter `c` are skipped without any effect (no network call, no counter
change); and in the concrete directory holding exactly `0101`–`0105`
the cursor is `(1, 5)` and the first network action of the resumed run
is the GET for chapter 1 heading 06. -/
theorem c8_resume_cursor :
    (∀ files lastFile,
      maxString (files.filter (fun f => strEndsWith f ".pdf")) = some lastFile →
      findResumePoint files = parseCoordFilename lastFile) ∧
    (∀ cfg G H R rp chapter heading st, chapter = rp.chapter →
      parseDec heading ≤ rp.heading →
      processGridItem cfg G H R (some rp) chapter st heading = st) ∧
    (∀ cfg G H R rp st chapter, chapter < rp.chapter →
      runChapter cfg G H R (some rp) st chapter = st) ∧
    (findResumePoint (fsFive.map Prod.fst) = some ⟨1, 5⟩ ∧
     (runAll cfgResume (fun _ => GetEvent.resp 200 none pdfBytes none)
        (fun _ => HeadEvent.err) (fun _ => 0) none [] fsFive).trace.head? =
      some (Action.getReq "0106_2022e.pdf" 1 0)) := by
  refine ⟨?_, ?_, ?_, by decide, by decide⟩
  · intro files lastFile h
    unfold findResumePoint
    rw [h]
  · intro cfg G H R rp chapter heading st h1 h2
    unfold processGridItem
    simp [h1, h2]
  · intro cfg G H R rp st chapter h
    unfold runChapter
    simp [h]

theorem c8_resume_cursor_witness :
    findResumePoint ["0101_2022e.pdf", "0105_2022e.pdf", "0103_2022e.pdf"] =
      parseCoordFilename "0105_2022e.pdf" ∧
    processGridItem cfg0 (fun _ => GetEvent.err "unused") (fun _ => HeadEvent.err)
        (fun _ => 0) (some ⟨1, 5⟩) 1 (initRunState none []) "03" =
      initRunState none [] ∧
    runChapter cfg0 (fun _ => GetEvent.err "unused") (fun _ => HeadEvent.err)
        (fun _ => 0) (some ⟨2, 5⟩) (initRunState none []) 1 =
      initRunState none [] :=
  ⟨c8_resume_cursor.1 ["0101_2022e.pdf", "0105_2022e.pdf", "0103_2022e.pdf"]
      "0105_2022e.pdf" (by decide),
   c8_resume_cursor.2.1 cfg0 (fun _ => GetEvent.err "unused") (fun _ => HeadEvent.err)
      (fun _ => 0) ⟨1, 5⟩ 1 "03" (initRunState none []) rfl (by decide),
   c8_resume_cursor.2.2.1 cfg0 (fun _ => GetEvent.err "unused") (fun _ => HeadEvent.err)
      (fun _ => 0) ⟨2, 5⟩ (initRunState none []) 1 (by decide)⟩

/-! ## C9: politeness pacing -/

/-- `cfg0` with the pacing of a real run: 1000 ms base delay and 500 ms
variation. -/
def cfgPaced : Config := { cfg0 with delay := 1000, delayVariation := 500 }

/-- An output directory holding just `0101`. -/
def fsOne : List (String × List Char) := [("0101_2022e.pdf", pdfBytes)]

/-- Does this fetch result make the orchestrator call `process.exit(1)`
(a non-success result with status 404)? -/
def resultExits : Except String DownloadResult → Bool
  | .ok r => !r.success && (r.status == some 404)
  | .error _ => false

/-- C9 (counterexample): with base delay 1000 ms and variation 500 ms,
the run over a directory holding `0101` (whose size matches the
server's Content-Length) opens with `sleep 500` — the half-delay HEAD
pause, already below the base delay — then issues the HEAD for `0101`
and immediately afterwards, with no intervening sleep, the GET for
`0102`: two consecutive network-issuing steps without a
`baseDelay + random(0, variance)` sleep between them, contradicting the
claim's universal pacing guarantee. -/
theorem c9_counterexample :
    ((runAll cfgPaced (fun _ => GetEvent.resp 200 none pdfBytes none)
        (fun _ => HeadEvent.resp 200 none (some pdfBytes.length)) (fun _ => 0)
        none [] fsOne).trace.take 3 =
      [Action.sleep 500, Action.headReq "0101_2022e.pdf",
       Action.getReq "0102_2022e.pdf" 1 0]) ∧
    (500 : ℚ) < cfgPaced.delay := by
  constructor
  · with_unfolding_all decide
  · with_unfolding_all decide

/-- C9 (amended): when the base delay is positive, `getRandomDelay`
yields `base + ⌊r·variation⌋`, which for a random draw `r ∈ [0, 1)` and
positive variation lies in `[base, base + variation)`; every download
step is followed by a `getRandomDelay(delay, delayVariation)` sleep
(unless the 404 exit fired), and every change-detector HEAD is preceded
by a `getRandomDelay(delay/2, delayVariation/2)` sleep — but a
HEAD-skip itself appends no trailing sleep, so a skipped item followed
by a download produces back-to-back network calls. -/
theorem c9_pacing :
    (∀ base v r : ℚ, 0 ≤ r → r < 1 → 0 < v →
      base ≤ getRandomDelay base v r ∧ getRandomDelay base v r < base + v) ∧
    (∀ cfg G H R st filename, cfg.dryRun = false →
      lookupFile st.fs filename = none → st.exited = none → 0 < cfg.delay →
      resultExits (downloadFile G filename cfg.retries none st.jar st.kGet).result = false →
      (processFile cfg G H R st filename).trace =
        st.trace ++ (downloadFile G filename cfg.retries none st.jar st.kGet).trace ++
          [Action.sleep (getRandomDelay cfg.delay cfg.delayVariation (R st.kRand))]) ∧
    (∀ cfg G H R st filename content, cfg.checkExisting = true →
      cfg.skipExisting = false → cfg.dryRun = false →
      lookupFile st.fs filename = some content → 0 < cfg.delay →
      (checkFileChanged H filename (some content.length) st.kHead).changed = false →
      (processFile cfg G H R st filename).trace =
        st.trace ++
          [Action.sleep (getRandomDelay (cfg.delay / 2) (cfg.delayVariation / 2)
            (R st.kRand))] ++
          (checkFileChanged H filename (some content.length) st.kHead).trace) := by
  refine ⟨?_, ?_, ?_⟩
  · intro base v r h0 h1 hv
    unfold getRandomDelay
    have hnn : (0 : ℚ) ≤ ((⌊r * v⌋ : ℤ) : ℚ) := by
      have h : (0 : ℤ) ≤ ⌊r * v⌋ := Int.floor_nonneg.mpr (mul_nonneg h0 hv.le)
      exact_mod_cast h
    have hfle : ((⌊r * v⌋ : ℤ) : ℚ) ≤ r * v := Int.floor_le _
    have hlt : r * v < v := mul_lt_of_lt_one_left hv h1
    exact ⟨by linarith, by linarith⟩
  · intro cfg G H R st filename hdry habs hexit hdelay hnoexit
    rw [processFile_no_local cfg G H R st filename habs hdry]
    cases hres : (downloadFile G filename cfg.retries none st.jar st.kGet).result with
    | ok r =>
        rw [hres] at hnoexit
        by_cases hs : r.success = true
        · simp only [hres, hs, if_true, hexit, Option.isSome_some, Option.isSome_none,
            Bool.false_eq_true, if_false, hdelay, if_true, List.append_assoc]
        · have hs' : r.success = false := by simpa using hs
          have h404 : (r.status == some 404) = false := by
            simp only [resultExits, hs'] at hnoexit
            simpa using hnoexit
          simp only [hres, hs', Bool.false_eq_true, if_false, h404, hexit,
            Option.isSome_none, hdelay, if_true, List.append_assoc]
    | error e =>
        simp only [hres, hexit, Option.isSome_none, Bool.false_eq_true, if_false,
          hdelay, if_true, List.append_assoc]
  · intro cfg G H R st filename content hchk hskip hdry hfs hdelay hch
    rw [processFile_head_skip cfg G H R st filename content hchk hskip hdry hfs hch]
    simp only [hdelay, if_true, List.append_assoc]

theorem c9_pacing_witness :
    ((5000 : ℚ) ≤ getRandomDelay 5000 5000 (1/2) ∧
      getRandomDelay 5000 5000 (1/2) < 5000 + 5000) ∧
    ((processFile cfgPaced (fun _ => GetEvent.resp 200 none pdfBytes none)
        (fun _ => HeadEvent.err) (fun _ => 0) (initRunState none []) "0102_2022e.pdf").trace =
      (initRunState none []).trace ++
        (downloadFile (fun _ => GetEvent.resp 200 none pdfBytes none) "0102_2022e.pdf"
          cfgPaced.retries none (initRunState none []).jar (initRunState none []).kGet).trace ++
        [Action.sleep (getRandomDelay cfgPaced.delay cfgPaced.delayVariation 0)]) ∧
    ((processFile cfgPaced (fun _ => GetEvent.err "unused")
        (fun _ => HeadEvent.resp 200 none (some pdfBytes.length)) (fun _ => 0)
        (initRunState none fsOne) "0101_2022e.pdf").trace =
      (initRunState none fsOne).trace ++
        [Action.sleep (getRandomDelay (cfgPaced.delay / 2) (cfgPaced.delayVariation / 2) 0)] ++
        (checkFileChanged (fun _ => HeadEvent.resp 200 none (some pdfBytes.length))
          "0101_2022e.pdf" (some pdfBytes.length) (initRunState none fsOne).kHead).trace) :=
  ⟨c9_pacing.1 5000 5000 (1/2) (by norm_num) (by norm_num) (by norm_num),
   c9_pacing.2.1 cfgPaced (fun _ => GetEvent.resp 200 none pdfBytes none)
      (fun _ => HeadEvent.err) (fun _ => 0) (initRunState none []) "0102_2022e.pdf"
      rfl rfl rfl (by with_unfolding_all decide) (by decide),
   c9_pacing.2.2 cfgPaced (fun _ => GetEvent.err "unused")
      (fun _ => HeadEvent.resp 200 none (some pdfBytes.length)) (fun _ => 0)
      (initRunState none fsOne) "0101_2022e.pdf" pdfBytes
      rfl rfl rfl (by decide) (by with_unfolding_all decide) (by decide)⟩

/-! ## C10: cookie-jar replacement -/

/-- C10 (counterexample): a response that carries one `Set-Cookie`
header whose name=value segment is empty: the code leaves the old jar
(including the previously harvested cookie `warm=1`) intact, while the
claim says the jar then equals exactly the (empty) set of name=value
pairs of that response. -/
theorem c10_counterexample :
    extractCookiePairs [""] = [] ∧
    extractCookies "warm=1" (some [""]) = "warm=1" ∧
    extractCookies "warm=1" (some [""]) ≠ joinSep "; " (extractCookiePairs [""]) := by
  refine ⟨by decide, by decide, by decide⟩

/-- C10 (amended): the jar is replaced wholesale — never merged — by the
`name=value` first segments of the observed `Set-Cookie` headers, but
only when at least one such segment is nonempty after trimming; a
response with no `Set-Cookie` header, or whose headers all reduce to
empty segments, leaves the jar unchanged. -/
theorem c10_cookie_jar (jar : String) (hs : List String) :
    extractCookies jar none = jar ∧
    (extractCookiePairs hs ≠ [] →
      extractCookies jar (some hs) = joinSep "; " (extractCookiePairs hs)) ∧
    (extractCookiePairs hs = [] → extractCookies jar (some hs) = jar) := by
  refine ⟨rfl, ?_, ?_⟩
  · intro h
    have hlen : 0 < (extractCookiePairs hs).length := List.length_pos.mpr h
    simp only [extractCookies, if_pos hlen]
  · intro h
    simp [extractCookies, h]

theorem c10_cookie_jar_witness :
    extractCookies "warm=1" (some ["sid=42; Path=/", "t=7"]) =
      joinSep "; " (extractCookiePairs ["sid=42; Path=/", "t=7"]) ∧
    extractCookies "warm=1" none = "warm=1" :=
  ⟨(c10_cookie_jar "warm=1" ["sid=42; Path=/", "t=7"]).2.1 (by decide),
   (c10_cookie_jar "warm=1" []).1⟩

/-! ## C4: filename resolution -/

/-- C4: filename resolution for coordinate documents is the pure
function `coordFilename`; for chapters `1..97` and headings `01..99`
(the heading string being `pad2` of the heading number, as produced by
`generateHeadings`) it is injective, and it maps chapter 1 heading 01 of
edition 2022 to `0101_2022e.pdf`. -/
theorem c4_resolveFilename (edition : String) (c₁ c₂ h₁ h₂ : Nat)
    (hc₁ : 1 ≤ c₁) (hc₁' : c₁ ≤ 97) (hc₂ : 1 ≤ c₂) (hc₂' : c₂ ≤ 97)
    (hh₁ : 1 ≤ h₁) (hh₁' : h₁ ≤ 99) (hh₂ : 1 ≤ h₂) (hh₂' : h₂ ≤ 99)
    (heq : coordFilename edition c₁ (pad2 h₁) = coordFilename edition c₂ (pad2 h₂)) :
    (c₁ = c₂ ∧ h₁ = h₂) ∧ coordFilename "2022" 1 (pad2 1) = "0101_2022e.pdf" := by
  refine ⟨?_, by decide⟩
  have hd : (pad2 c₁).data ++ ((pad2 h₁).data ++ ("_".data ++ (edition.data ++ "e.pdf".data))) =
      (pad2 c₂).data ++ ((pad2 h₂).data ++ ("_".data ++ (edition.data ++ "e.pdf".data))) := by
    have := congrArg String.data heq
    simpa [coordFilename, string_data_append, List.append_assoc] using this
  have hlenc : (pad2 c₁).data.length = (pad2 c₂).data.length := by
    rw [pad2_length c₁ (by omega), pad2_length c₂ (by omega)]
  obtain ⟨hc, hrest⟩ := List.append_inj hd hlenc
  have hlenh : (pad2 h₁).data.length = (pad2 h₂).data.length := by
    rw [pad2_length h₁ (by omega), pad2_length h₂ (by omega)]
  obtain ⟨hh, -⟩ := List.append_inj hrest hlenh
  constructor
  · have h1 : parseDec (pad2 c₁) = parseDec (pad2 c₂) := by
      unfold parseDec
      rw [hc]
    rw [pad2_parse c₁ (by omega), pad2_parse c₂ (by omega)] at h1
    exact h1
  · have h2 : parseDec (pad2 h₁) = parseDec (pad2 h₂) := by
      unfold parseDec
      rw [hh]
    rw [pad2_parse h₁ (by omega), pad2_parse h₂ (by omega)] at h2
    exact h2

theorem c4_resolveFilename_witness :
    (1 = 1 ∧ 1 = 1) ∧ coordFilename "2022" 1 (pad2 1) = "0101_2022e.pdf" :=
  c4_resolveFilename "2022" 1 1 1 1 (by decide) (by decide) (by decide) (by decide)
    (by decide) (by decide) (by decide) (by decide) rfl

end WCO
